import Mathlib

/-!
Verification of the ai-bom-scan client: a shallow embedding of the
pagination, job-orchestration and aggregation code in
`src/ai_bom_scan/{api,cli,search,config}.py`, `src/ai_bom_scan/utils/output.py`
and the standalone `main.py`, together with theorems settling the frozen
claims about the specification.

JSON values are modelled by an inductive `Json`; Python dictionary and list
operations (`d[k]`, `d.get(k, default)`, `in`, `len`, `extend`, truthiness,
f-string interpolation) are modelled by total Lean functions returning
`Except PyErr _` where the Python operation can raise.  The HTTP layer is an
oracle: a scripted list of responses consumed one per request, with `exn`
standing for a raised `requests.exceptions.RequestException`.  Each embedded
operation additionally returns the trace of HTTP actions it performed.
-/

namespace AiBom

/-- JSON values as produced by `response.json()`. -/
inductive Json where
  | null
  | bool (b : Bool)
  | num (n : Int)
  | str (s : String)
  | arr (xs : List Json)
  | obj (fields : List (String × Json))

/-- Python exceptions that the embedded code can raise to its caller
(`requests.exceptions.RequestException` and subclasses are represented by
`requestError`; they are the only ones the source ever catches). -/
inductive PyErr where
  | keyError (k : String)
  | typeError
  | attributeError (a : String)
  | requestError
deriving Repr, DecidableEq

/-- First-match lookup in a field list (Python dict keys are unique, so this
is exactly dict lookup). -/
def lookupField : List (String × Json) → String → Option Json
  | [], _ => none
  | (k, v) :: rest, key => if k = key then some v else lookupField rest key

/-- Python `d.get(key, default)`: defined on dicts only; on any other value
attribute lookup of `get` raises `AttributeError`. -/
def dictGetD (j : Json) (key : String) (dflt : Json) : Except PyErr Json :=
  match j with
  | .obj fs => .ok ((lookupField fs key).getD dflt)
  | _ => .error (.attributeError "get")

/-- Python `d.get(key)` (default `None`). -/
def dictGet (j : Json) (key : String) : Except PyErr Json :=
  dictGetD j key .null

/-- Python subscript `d[key]`: `KeyError` when the key is absent from a dict,
`TypeError` when the value is not subscriptable by a string. -/
def subscript (j : Json) (key : String) : Except PyErr Json :=
  match j with
  | .obj fs =>
    match lookupField fs key with
    | some v => .ok v
    | none => .error (.keyError key)
  | _ => .error .typeError

mutual

/-- Python structural equality `==` restricted to JSON values. -/
def jsonEq : Json → Json → Bool
  | .null, .null => true
  | .bool a, .bool b => a == b
  | .num a, .num b => a == b
  | .str a, .str b => a == b
  | .arr xs, .arr ys => jsonEqList xs ys
  | .obj fs, .obj gs => jsonEqFields fs gs
  | _, _ => false

/-- Elementwise equality of JSON arrays. -/
def jsonEqList : List Json → List Json → Bool
  | [], [] => true
  | x :: xs, y :: ys => jsonEq x y && jsonEqList xs ys
  | _, _ => false

/-- Pairwise equality of field lists. -/
def jsonEqFields : List (String × Json) → List (String × Json) → Bool
  | [], [] => true
  | (k, v) :: fs, (l, w) :: gs => k == l && jsonEq v w && jsonEqFields fs gs
  | _, _ => false

end

/-- Python truthiness of a JSON value. -/
def pyTruthy : Json → Bool
  | .null => false
  | .bool b => b
  | .num n => n != 0
  | .str s => s != ""
  | .arr xs => !xs.isEmpty
  | .obj fs => !fs.isEmpty

mutual

/-- Python `repr` of a JSON value (strings quoted, containers rendered
recursively); used for f-string interpolation of non-string values. -/
def pyRepr : Json → String
  | .null => "None"
  | .bool true => "True"
  | .bool false => "False"
  | .num n => toString n
  | .str s => "'" ++ s ++ "'"
  | .arr xs => "[" ++ String.intercalate ", " (pyReprList xs) ++ "]"
  | .obj fs => "\x7b" ++ String.intercalate ", " (pyReprFields fs) ++ "\x7d"

/-- `repr` of the elements of an array. -/
def pyReprList : List Json → List String
  | [] => []
  | x :: xs => pyRepr x :: pyReprList xs

/-- `repr` of the fields of a dict. -/
def pyReprFields : List (String × Json) → List String
  | [] => []
  | (k, v) :: fs => ("'" ++ k ++ "': " ++ pyRepr v) :: pyReprFields fs

end

/-- Python `str()` as used by f-string interpolation. -/
def pyStr : Json → String
  | .str s => s
  | j => pyRepr j

/-- Python `acc.extend(v)`: iterates `v` (lists yield elements, strings yield
one-character strings, dicts yield their keys); non-iterables raise
`TypeError`. -/
def pyExtend (acc : List Json) (v : Json) : Except PyErr (List Json) :=
  match v with
  | .arr xs => .ok (acc ++ xs)
  | .str s => .ok (acc ++ s.toList.map (fun c => Json.str c.toString))
  | .obj fs => .ok (acc ++ fs.map (fun p => Json.str p.1))
  | _ => .error .typeError

/-- Python `for x in v` iteration, same iterables as `pyExtend`. -/
def pyIter (v : Json) : Except PyErr (List Json) :=
  match v with
  | .arr xs => .ok xs
  | .str s => .ok (s.toList.map (fun c => Json.str c.toString))
  | .obj fs => .ok (fs.map (fun p => Json.str p.1))
  | _ => .error .typeError

/-- Python `len(v)`. -/
def pyLen (v : Json) : Except PyErr Nat :=
  match v with
  | .arr xs => .ok xs.length
  | .str s => .ok s.length
  | .obj fs => .ok fs.length
  | _ => .error .typeError

/-- Python `key in v`: key membership for dicts, element membership for
lists, substring test for strings. -/
def pyContains (key : String) (v : Json) : Except PyErr Bool :=
  match v with
  | .obj fs => .ok ((lookupField fs key).isSome)
  | .arr xs => .ok (xs.any (fun x => jsonEq x (.str key)))
  | .str s => .ok ((s.splitOn key).length > 1)
  | _ => .error .typeError

/-- Python `str.title()`. -/
def pyTitle (s : String) : String :=
  String.mk (s.toList.foldl
    (fun (acc : List Char × Bool) c =>
      if c.isAlpha then
        (acc.1 ++ [if acc.2 then c.toLower else c.toUpper], true)
      else (acc.1 ++ [c], false))
    ([], false)).1

/-! ## The HTTP oracle

Each `requests` call consumes the next entry of a scripted response list.
`exn` models a raised `requests.exceptions.RequestException` (transport
error); a response carries the HTTP status and, when the body parses as
JSON, its parsed value (`body = none` models a `.json()` call raising
`requests.exceptions.JSONDecodeError`, itself a `RequestException`).
An exhausted script is treated like a transport error. -/

/-- A scripted HTTP response. -/
structure HttpResp where
  status : Nat
  body : Option Json

/-- One scripted outcome of a `requests` call. -/
inductive HttpResult where
  | exn
  | resp (r : HttpResp)

/-- The externally visible actions the client performs, in order. -/
inductive Action where
  | get (url : String)
  | post (url : String)
  | getNoRedirect (url : String)
  | getRedirect (url : String)
  | sleep (n : Nat)
deriving Repr, DecidableEq

/-- `response.raise_for_status()` raises exactly for 400 ≤ status < 600. -/
def raisesForStatus (s : Nat) : Bool :=
  400 ≤ s && s < 600

/-- The configuration fields of `SnykAIBomAPIClient` (copied from `Config`
in `config.py`; `org_id`/`group_id` are `Optional[str]`). -/
structure ClientCfg where
  apiUrl : String
  orgId : Option String
  groupId : Option String
  apiVersion : String

/-- Truthiness of an `Optional[str]` Python value. -/
def optStrTruthy : Option String → Bool
  | none => false
  | some s => s != ""

/-- An `Optional[str]` as the JSON value it denotes in f-strings. -/
def optStrJson : Option String → Json
  | none => .null
  | some s => .str s

/-! ## Paginated fetchers (`api.py`) -/

/-- The `while url:` loop of `SnykAIBomAPIClient.get_all_targets_from_org`
(`api.py` lines 70-88).  The whole loop body is wrapped in
`try ... except requests.exceptions.RequestException: return None`, so
transport errors, `raise_for_status` failures and body-decode failures all
yield `.ok none` (Python `None`); `AttributeError`/`TypeError` from the
dict operations are not caught and propagate as `.error`.
Returns the action trace, the unconsumed script, and the outcome. -/
def targetsPagesLoop (apiUrl : String) :
    List HttpResult → String → List Json →
    List Action × List HttpResult × Except PyErr (Option (List Json))
  | script, url, acc =>
    if url = "" then ([], script, .ok (some acc))
    else
      match script with
      | [] => ([.get url], [], .ok none)
      | .exn :: rest => ([.get url], rest, .ok none)
      | .resp r :: rest =>
        if raisesForStatus r.status then ([.get url], rest, .ok none)
        else
          match r.body with
          | none => ([.get url], rest, .ok none)
          | some data =>
            match dictGetD data "data" (.arr []) with
            | .error e => ([.get url], rest, .error e)
            | .ok items =>
              match pyExtend acc items with
              | .error e => ([.get url], rest, .error e)
              | .ok acc' =>
                match dictGetD data "links" (.obj []) with
                | .error e => ([.get url], rest, .error e)
                | .ok links =>
                  match dictGet links "next" with
                  | .error e => ([.get url], rest, .error e)
                  | .ok next =>
                    if pyTruthy next then
                      let out := targetsPagesLoop apiUrl rest (apiUrl ++ pyStr next) acc'
                      (.get url :: out.1, out.2)
                    else ([.get url], rest, .ok (some acc'))

/-- `SnykAIBomAPIClient.get_all_targets_from_org` (`api.py` lines 55-90):
resolves the organization id (from the `org` argument when truthy, else the
client's `org_id`), builds the first-page URL and runs the pagination loop. -/
def get_all_targets_from_org (cfg : ClientCfg) (org : Json) (script : List HttpResult) :
    List Action × List HttpResult × Except PyErr (Option (List Json)) :=
  match (if pyTruthy org then dictGet org "id" else .ok (optStrJson cfg.orgId) :
      Except PyErr Json) with
  | .error e => ([], script, .error e)
  | .ok orgId =>
    let url := cfg.apiUrl ++ "/rest/orgs/" ++ pyStr orgId ++ "/targets?version="
      ++ cfg.apiVersion ++ "&limit=100"
    targetsPagesLoop cfg.apiUrl script url []

/-- The `while url:` loop of `SnykAIBomAPIClient.get_all_orgs_from_group`
(`api.py` lines 47-52).  There is no `try`/`except` here: every failure
(transport, HTTP status, body decode, dict misuse) propagates to the caller
as an exception, modelled by `.error`.  The loop variable `url` is whatever
JSON value `links.next` held, so it is carried as `Json`; a truthy non-string
URL makes `requests.get` raise. -/
def orgsPagesLoop :
    List HttpResult → Json → List Json →
    List Action × List HttpResult × Except PyErr (List Json)
  | script, url, acc =>
    if pyTruthy url then
      match url with
      | .str u =>
        (match script with
        | [] => ([.get u], [], .error .requestError)
        | .exn :: rest => ([.get u], rest, .error .requestError)
        | .resp r :: rest =>
          if raisesForStatus r.status then ([.get u], rest, .error .requestError)
          else
            match r.body with
            | none => ([.get u], rest, .error .requestError)
            | some data =>
              match dictGetD data "data" (.arr []) with
              | .error e => ([.get u], rest, .error e)
              | .ok items =>
                match pyExtend acc items with
                | .error e => ([.get u], rest, .error e)
                | .ok acc' =>
                  match dictGetD data "links" (.obj []) with
                  | .error e => ([.get u], rest, .error e)
                  | .ok links =>
                    match dictGet links "next" with
                    | .error e => ([.get u], rest, .error e)
                    | .ok next =>
                      let out := orgsPagesLoop rest next acc'
                      (.get u :: out.1, out.2))
      | _ => ([], script, .error .requestError)
    else ([], script, .ok acc)

/-- `SnykAIBomAPIClient.get_all_orgs_from_group` (`api.py` lines 41-53). -/
def get_all_orgs_from_group (cfg : ClientCfg) (script : List HttpResult) :
    List Action × List HttpResult × Except PyErr (List Json) :=
  let url := cfg.apiUrl ++ "/rest/groups/" ++ pyStr (optStrJson cfg.groupId)
    ++ "/orgs?version=" ++ cfg.apiVersion ++ "&limit=100"
  orgsPagesLoop script (.str url) []

/-- The `for org in orgs: targets.extend(get_all_targets_from_org(org))`
loop of `get_all_targets` (`api.py` lines 36-37).  A per-org fetch failure
returns Python `None`, and `list.extend(None)` raises `TypeError`. -/
def getAllTargetsOrgLoop (cfg : ClientCfg) :
    List Json → List HttpResult → List Json →
    List Action × List HttpResult × Except PyErr (List Json)
  | [], script, acc => ([], script, .ok acc)
  | org :: orgs, script, acc =>
    let (tr, rest, res) := get_all_targets_from_org cfg org script
    match res with
    | .error e => (tr, rest, .error e)
    | .ok none => (tr, rest, .error .typeError)
    | .ok (some ts) =>
      let out := getAllTargetsOrgLoop cfg orgs rest (acc ++ ts)
      (tr ++ out.1, out.2)

/-- `SnykAIBomAPIClient.get_all_targets` (`api.py` lines 25-39). -/
def get_all_targets (cfg : ClientCfg) (script : List HttpResult) :
    List Action × List HttpResult × Except PyErr (List Json) :=
  if optStrTruthy cfg.groupId then
    let (tr, rest, res) := get_all_orgs_from_group cfg script
    match res with
    | .error e => (tr, rest, .error e)
    | .ok orgs =>
      let out := getAllTargetsOrgLoop cfg orgs rest []
      (tr ++ out.1, out.2)
  else
    getAllTargetsOrgLoop cfg [.obj [("id", optStrJson cfg.orgId)]] script []

/-! ## Job orchestrator (`api.py` `process_target`) -/

/-- Python's `status not in ["finished", "errored"]` negated: the terminal
check of the poll loop. -/
def isTerminalStatus (st : Json) : Bool :=
  jsonEq st (.str "finished") || jsonEq st (.str "errored")

/-- `response_data['data']['attributes']['status']` (`api.py` line 142). -/
def pollStatusOf (rd : Json) : Except PyErr Json := do
  let d ← subscript rd "data"
  let a ← subscript d "attributes"
  subscript a "status"

/-- `post_data['links']['self']` and
`post_data['data']['attributes']['status']` (`api.py` lines 123, 125). -/
def jobFieldsOf (postData : Json) : Except PyErr (Json × Json) := do
  let links ← subscript postData "links"
  let selfLink ← subscript links "self"
  let d ← subscript postData "data"
  let a ← subscript d "attributes"
  let st ← subscript a "status"
  pure (selfLink, st)

/-- The target-field subscripts of `process_target` that run before any
`try` (`api.py` lines 99-101), yielding the owning organization's id. -/
def processTargetFields (target : Json) : Except PyErr Json := do
  let _tid ← subscript target "id"
  let attrs ← subscript target "attributes"
  let _tname ← dictGetD attrs "display_name" (.str "Unknown Name")
  let rel ← subscript target "relationships"
  let orgRel ← subscript rel "organization"
  let orgData ← subscript orgRel "data"
  subscript orgData "id"

/-- The poll loop of `process_target` (`api.py` lines 132-146):
`while status not in ["finished", "errored"]`, sleep 2, GET the job's
self-link without following redirects, re-read
`response_data['data']['attributes']['status']`.  Transport/HTTP/decode
errors are caught and make the function return `[]` (modelled `.ok none`);
a missing `data.attributes.status` field raises `KeyError`/`TypeError`,
which the `except requests.exceptions.RequestException` clause does not
catch (`.error`).  `.ok (some st)` is loop exit with terminal status `st`. -/
def pollLoop (jobUrl : String) :
    List HttpResult → Json →
    List Action × List HttpResult × Except PyErr (Option Json)
  | script, st =>
    if isTerminalStatus st then ([], script, .ok (some st))
    else
      match script with
      | [] => ([.sleep 2, .getNoRedirect jobUrl], [], .ok none)
      | .exn :: rest => ([.sleep 2, .getNoRedirect jobUrl], rest, .ok none)
      | .resp r :: rest =>
        if raisesForStatus r.status then
          ([.sleep 2, .getNoRedirect jobUrl], rest, .ok none)
        else
          match r.body with
          | none => ([.sleep 2, .getNoRedirect jobUrl], rest, .ok none)
          | some rd =>
            match pollStatusOf rd with
            | .error e => ([.sleep 2, .getNoRedirect jobUrl], rest, .error e)
            | .ok st' =>
              let out := pollLoop jobUrl rest st'
              (.sleep 2 :: .getNoRedirect jobUrl :: out.1, out.2)

/-- The final redirect-following GET of the finished job's self-link
(`api.py` lines 155-165): any `RequestException` (transport, status,
decode) is caught and yields `[]`; otherwise the parsed body is returned. -/
def finalFetch (jobUrl : String) (script : List HttpResult) :
    List Action × List HttpResult × Except PyErr Json :=
  match script with
  | [] => ([.getRedirect jobUrl], [], .ok (.arr []))
  | .exn :: rest => ([.getRedirect jobUrl], rest, .ok (.arr []))
  | .resp r :: rest =>
    if raisesForStatus r.status then ([.getRedirect jobUrl], rest, .ok (.arr []))
    else
      match r.body with
      | none => ([.getRedirect jobUrl], rest, .ok (.arr []))
      | some doc => ([.getRedirect jobUrl], rest, .ok doc)

/-- `SnykAIBomAPIClient.process_target` (`api.py` lines 92-165).  The result
is the Python return value: the parsed artifact document, or the empty list
`Json.arr []`; `.error` models an exception escaping to the caller (the
target-field subscripts on lines 99-101 run before any `try`, and
`post_data['links']['self']` / `...['status']` raise uncaught `KeyError`
inside a `try` that only catches `RequestException`). -/
def process_target (cfg : ClientCfg) (target : Json) (script : List HttpResult) :
    List Action × List HttpResult × Except PyErr Json :=
  match processTargetFields target with
  | .error e => ([], script, .error e)
  | .ok orgId =>
    let postUrl := cfg.apiUrl ++ "/rest/orgs/" ++ pyStr orgId ++ "/ai_boms?version="
      ++ cfg.apiVersion
    match script with
    | [] => ([.post postUrl], [], .ok (.arr []))
    | .exn :: rest => ([.post postUrl], rest, .ok (.arr []))
    | .resp r :: rest =>
      if r.status = 422 then ([.post postUrl], rest, .ok (.arr []))
      else if raisesForStatus r.status then ([.post postUrl], rest, .ok (.arr []))
      else
        match r.body with
        | none => ([.post postUrl], rest, .ok (.arr []))
        | some postData =>
          match jobFieldsOf postData with
          | .error e => ([.post postUrl], rest, .error e)
          | .ok (selfLink, st0) =>
            let jobUrl := cfg.apiUrl ++ pyStr selfLink
            let (tr, rest2, polled) := pollLoop jobUrl rest st0
            match polled with
            | .error e => (.post postUrl :: tr, rest2, .error e)
            | .ok none => (.post postUrl :: tr, rest2, .ok (.arr []))
            | .ok (some stT) =>
              if jsonEq stT (.str "errored") then
                (.post postUrl :: tr, rest2, .ok (.arr []))
              else
                let out := finalFetch jobUrl rest2
                (.post postUrl :: tr ++ out.1, out.2)

/-! ## Target classifier and scan coordinator (`cli.py` `scan`) -/

/-- The nested lookup
`target.get('relationships', {}).get('integration', {}).get('data', {})
.get('attributes', {}).get('integration_type')` shared by `cli.py`
(lines 213, 234), `search.py` (line 60) and `main.py` (line 198). -/
def integrationTypeOf (target : Json) : Except PyErr Json := do
  let a ← dictGetD target "relationships" (.obj [])
  let b ← dictGetD a "integration" (.obj [])
  let c ← dictGetD b "data" (.obj [])
  let d ← dictGetD c "attributes" (.obj [])
  dictGet d "integration_type"

/-- The allow-list of the `scan` command (`cli.py` lines 214, 235). -/
def scanAllowList : List String :=
  ["github", "github-enterprise", "github-cloud-app", "github-server-app",
   "gitlab", "azure-repos", "bitbucket-cloud", "bitbucket-server",
   "bitbucket-cloud-app"]

/-- The allow-list of the standalone `main.py` (line 199). -/
def mainAllowList : List String :=
  ["github", "github-enterprise", "gitlab", "azure-repos", "bitbucket-cloud"]

/-- Python `x in [s1, ..., sn]` for a JSON value against a string list. -/
def pyInStrList (x : Json) (l : List String) : Bool :=
  l.any (fun s => jsonEq x (.str s))

/-- The `scan` command's classifier check (`cli.py` lines 234-235). -/
def isSupportedScan (target : Json) : Except PyErr Bool := do
  let it ← integrationTypeOf target
  pure (pyInStrList it scanAllowList)

/-- The `main.py` classifier check (lines 198-199). -/
def isSupportedMain (target : Json) : Except PyErr Bool := do
  let it ← integrationTypeOf target
  pure (pyInStrList it mainAllowList)

/-- The per-target component count printed by `scan`
(`cli.py` line 238): `len(aibom_data['data']['attributes']['components']) - 1`. -/
def componentCount (doc : Json) : Except PyErr Int := do
  let d ← subscript doc "data"
  let a ← subscript d "attributes"
  let c ← subscript a "components"
  let n ← pyLen c
  pure ((n : Int) - 1)

/-- One iteration of the `for i, target in enumerate(all_targets)` loop of
`scan` (`cli.py` lines 230-250): read the display name, classify, and for a
supported target run `process_target`; a truthy result is recorded as the
pair `(target_name, aibom_data)` after the component count is computed
(whose subscripts can raise on a top-level-shape artifact), a falsy result
is dropped.  `.error` models an exception reaching the command's blanket
`except Exception` handler. -/
def scanTargetStep (cfg : ClientCfg) (target : Json) (script : List HttpResult) :
    List Action × List HttpResult × Except PyErr (Option (Json × Json)) :=
  match (do
    let attrs ← subscript target "attributes"
    dictGetD attrs "display_name" (.str "Unknown Name") : Except PyErr Json) with
  | .error e => ([], script, .error e)
  | .ok name =>
    match isSupportedScan target with
    | .error e => ([], script, .error e)
    | .ok supported =>
      if supported then
        let (tr, rest, res) := process_target cfg target script
        match res with
        | .error e => (tr, rest, .error e)
        | .ok doc =>
          if pyTruthy doc then
            match componentCount doc with
            | .error e => (tr, rest, .error e)
            | .ok _ => (tr, rest, .ok (some (name, doc)))
          else (tr, rest, .ok none)
      else ([], script, .ok none)

/-- The whole per-target loop of `scan`, collecting the `all_aiboms`
entries in order; one target's uncaught exception aborts the loop (it is
caught only by the command's top-level handler). -/
def scanLoop (cfg : ClientCfg) :
    List Json → List HttpResult →
    List Action × List HttpResult × Except PyErr (List (Json × Json))
  | [], script => ([], script, .ok [])
  | t :: ts, script =>
    let (tr, rest, res) := scanTargetStep cfg t script
    match res with
    | .error e => (tr, rest, .error e)
    | .ok entry =>
      let out := scanLoop cfg ts rest
      (tr ++ out.1, out.2.1,
        match out.2.2 with
        | .error e => .error e
        | .ok entries => .ok (match entry with | some x => x :: entries | none => entries))

/-- The observable outcome of a `scan` run. -/
inductive ScanOutcome where
  | fatalNoTargets
  | errorExit (e : PyErr)
  | completed (aiboms : List (Json × Json))

/-- The process exit status of a `scan` outcome (`sys.exit(1)` on both the
"could not retrieve any targets" branch, `cli.py` lines 201-203, and the
blanket `except Exception` branch, lines 277-281). -/
def scanExitCode : ScanOutcome → Nat
  | .fatalNoTargets => 1
  | .errorExit _ => 1
  | .completed _ => 0

/-- The console message printed on the two failing exits of `scan`. -/
def scanExitMessage : ScanOutcome → Option String
  | .fatalNoTargets => some "Could not retrieve any targets. Exiting."
  | .errorExit _ => some "Error:"
  | .completed _ => none

/-- The `scan` command's pipeline after configuration validation
(`cli.py` lines 195-281): fetch all targets (any exception is caught by the
blanket handler and exits 1), exit 1 with the dedicated message when the
list is falsy, else run the per-target loop. -/
def scanRun (cfg : ClientCfg) (script : List HttpResult) : ScanOutcome :=
  let (_, rest, fetched) := get_all_targets cfg script
  match fetched with
  | .error e => .errorExit e
  | .ok allTargets =>
    if allTargets.isEmpty then .fatalNoTargets
    else
      match (scanLoop cfg allTargets rest).2.2 with
      | .error e => .errorExit e
      | .ok entries => .completed entries

/-! ## The `search` flow (`search.py`) and the `Config` object -/

/-- The attribute names defined on instances of the `Config` dataclass
(`config.py` lines 15-73): its six fields, its two properties and its four
methods. -/
def configAttrNames : List String :=
  ["api_token", "org_id", "group_id", "api_url", "api_version", "debug",
   "base_api_url", "headers", "validate", "get_aibom_url",
   "get_aibom_job_url", "get_aibom_result_url"]

/-- Python attribute lookup on a `Config` instance: `AttributeError` for a
name not defined by the dataclass. -/
def configHasAttr (name : String) : Bool :=
  configAttrNames.contains name

/-- Python attribute lookup on a `Config` instance. -/
def configAttrLookup (name : String) : Except PyErr String :=
  if configHasAttr name then .ok name else .error (.attributeError name)

/-- The classifier check of the `search` flow (`search.py` lines 60-61):
the nested `integration_type` lookup followed by
`integration_type in config.supported_integrations`.  The attribute read
runs before the membership test; since it always raises, the membership
test itself is dead code in the source. -/
def searchClassify (target : Json) : Except PyErr Bool := do
  let _it ← integrationTypeOf target
  let _attrVal ← configAttrLookup "supported_integrations"
  pure false

/-- The `for target in all_targets` loop of `search` (`search.py`
lines 58-71).  Each iteration starts with the classifier check; the scan
and match-collection of the body are unreachable because the check always
raises, so the loop is modelled up to that failing check.  `.error` models
an exception escaping the loop (the `search` command installs no handler,
so it crashes the run). -/
def searchLoop : List Json → Except PyErr (List Json)
  | [] => .ok []
  | t :: ts => do
    let _sup ← searchClassify t
    searchLoop ts

/-! ## Aggregate views (`utils/output.py`) -/

/-- The dual-shape component extraction duplicated at `output.py`
lines 83-86, 178-181 and 234-237 (and `html.py` lines 48-51):
`components = aibom_data.get('data', {}).get('attributes', {})
.get('components', [])` when `'data' in aibom_data`, else
`aibom_data.get('components', [])`. -/
def extractComponents (aibomData : Json) : Except PyErr Json := do
  let hasData ← pyContains "data" aibomData
  if hasData then do
    let d ← dictGetD aibomData "data" (.obj [])
    let a ← dictGetD d "attributes" (.obj [])
    dictGetD a "components" (.arr [])
  else
    dictGetD aibomData "components" (.arr [])

/-- The skip test `component.get('name') == 'Root' and
component.get('type') == 'application'` (`output.py` lines 90-91,
184-185, 241-242). -/
def isRootComponent (c : Json) : Except PyErr Bool := do
  let nm ← dictGet c "name"
  if jsonEq nm (.str "Root") then do
    let tp ← dictGet c "type"
    pure (jsonEq tp (.str "application"))
  else
    pure false

/-- `type_mapping.get(comp_type, comp_type.title())` (`output.py`
lines 103-109): the default `comp_type.title()` is evaluated eagerly, so a
non-string type raises `AttributeError` even when the mapping would hit. -/
def formattedType (tp : Json) : Except PyErr String :=
  match tp with
  | .str s =>
    .ok (if s = "machine-learning-model" then "ML Model"
      else if s = "data" then "Dataset"
      else if s = "library" then "Library"
      else if s = "application" then "Application"
      else pyTitle s)
  | _ => .error (.attributeError "title")

/-- The include filter `if included_internal_types and comp_type not in
included_internal_types: continue` (`output.py` line 97): skip when the set
is truthy and the type is not a member. -/
def includeSkips (included : Option (List String)) (compType : Json) : Bool :=
  match included with
  | none => false
  | some l => !l.isEmpty && !pyInStrList compType l

/-- The location strings collected from a component's occurrences
(`output.py` lines 116-122): `f"{location}:{line}"` when both truthy, the
raw `location` value when only it is truthy. -/
def occLocations : List Json → Except PyErr (List Json)
  | [] => .ok []
  | occ :: rest => do
    let loc ← dictGetD occ "location" (.str "")
    let line ← dictGetD occ "line" (.str "")
    let tail ← occLocations rest
    if pyTruthy loc && pyTruthy line then
      pure (.str (pyStr loc ++ ":" ++ pyStr line) :: tail)
    else if pyTruthy loc then
      pure (loc :: tail)
    else
      pure tail

/-- Python `sep.join(xs)`: every element must be a string. -/
def pyJoin (sep : String) (xs : List Json) : Except PyErr String := do
  let strs ← xs.foldrM (fun x acc =>
    match x with
    | Json.str s => .ok (s :: acc)
    | _ => .error PyErr.typeError) []
  pure (String.intercalate sep strs)

/-- The display form of a location list (`output.py` lines 125-130): at
most three joined by newlines plus an overflow note, or the placeholder. -/
def formatLocations (locs : List Json) : Except PyErr String :=
  if locs.isEmpty then .ok "No source locations"
  else do
    let s ← pyJoin "\n" (locs.take 3)
    if locs.length > 3 then
      pure (s ++ "\n... and " ++ toString (locs.length - 3) ++ " more")
    else
      pure s

/-- One row of the comprehensive summary table's backing list
(`components_data` entries, `output.py` lines 132-137). -/
structure Row where
  name : Json
  targetName : Json
  ctype : String
  locations : String

/-- The per-component body of the summary collection loop (`output.py`
lines 88-138): skip the Root/application marker, apply the include filter,
format the type and the locations, and emit one row. -/
def componentRow (included : Option (List String)) (targetName : Json) (c : Json) :
    Except PyErr (Option Row) := do
  let root ← isRootComponent c
  if root then pure none
  else do
    let compType ← dictGetD c "type" (.str "unknown")
    if includeSkips included compType then pure none
    else do
      let nameJ ← dictGetD c "name" (.str "Unknown Component")
      let fmt ← formattedType compType
      let ev ← dictGetD c "evidence" (.obj [])
      let occsJ ← dictGetD ev "occurrences" (.arr [])
      let occs ← pyIter occsJ
      let locs ← occLocations occs
      let locStr ← formatLocations locs
      pure (some ⟨nameJ, targetName, fmt, locStr⟩)

/-- The summary rows contributed by a list of components. -/
def rowsOfComponents (included : Option (List String)) (targetName : Json) :
    List Json → Except PyErr (List Row)
  | [] => .ok []
  | c :: cs => do
    let r ← componentRow included targetName c
    let tail ← rowsOfComponents included targetName cs
    pure (match r with | some row => row :: tail | none => tail)

/-- The summary rows contributed by one `all_aiboms` entry (`output.py`
lines 78-86 feeding the loop at 88-138). -/
def summaryRowsOfEntry (included : Option (List String)) (entry : Json) :
    Except PyErr (List Row) := do
  let tn ← dictGetD entry "target_name" (.str "Unknown Target")
  let ad ← dictGetD entry "aibom_data" (.obj [])
  let compsJ ← extractComponents ad
  let comps ← pyIter compsJ
  rowsOfComponents included tn comps

/-- The full `components_data` list built by `display_aibom_summary_all`
(`output.py` lines 74-138); its length is the printed
`total_components` counter. -/
def summaryRows (included : Option (List String)) :
    List Json → Except PyErr (List Row)
  | [] => .ok []
  | e :: es => do
    let hd ← summaryRowsOfEntry included e
    let tl ← summaryRows included es
    pure (hd ++ tl)

/-- `component_types[comp_type] = component_types.get(comp_type, 0) + 1`
with dict insertion order. -/
def bumpCount : List (Json × Nat) → Json → List (Json × Nat)
  | [], t => [(t, 1)]
  | (k, n) :: rest, t =>
    if jsonEq k t then (k, n + 1) :: rest else (k, n) :: bumpCount rest t

/-- The per-component body of the statistics loop (`output.py`
lines 183-194): skip Root, apply the include filter, bump the raw type's
count. -/
def statsOfComponents (included : Option (List String)) :
    List Json → List (Json × Nat) → Except PyErr (List (Json × Nat))
  | [], counts => .ok counts
  | c :: cs, counts => do
    let root ← isRootComponent c
    if root then statsOfComponents included cs counts
    else do
      let compType ← dictGetD c "type" (.str "unknown")
      if includeSkips included compType then statsOfComponents included cs counts
      else statsOfComponents included cs (bumpCount counts compType)

/-- The `component_types` dictionary built by the statistics pass
(`output.py` lines 172-194). -/
def typeStats (included : Option (List String)) :
    List Json → List (Json × Nat) → Except PyErr (List (Json × Nat))
  | [], counts => .ok counts
  | e :: es, counts => do
    let _tn ← dictGetD e "target_name" (.str "Unknown Target")
    let ad ← dictGetD e "aibom_data" (.obj [])
    let compsJ ← extractComponents ad
    let comps ← pyIter compsJ
    let counts' ← statsOfComponents included comps counts
    typeStats included es counts'

/-- One `forbidden_found` entry (`output.py` lines 274-278). -/
structure ForbiddenRow where
  modelName : Json
  targetName : Json
  locations : String

/-- `component.get('name', '').strip().lower()` (`output.py` line 249). -/
def pyStripLower (j : Json) : Except PyErr String :=
  match j with
  | .str s => .ok s.trim.toLower
  | _ => .error (.attributeError "strip")

/-- The per-component body of the policy-validation loop (`output.py`
lines 239-278): skip Root, consider only machine-learning-model
components, and report those whose normalized name is in the rejected
set. -/
def policyRowOfComponent (rejected : List String) (targetName : Json) (c : Json) :
    Except PyErr (Option ForbiddenRow) := do
  let root ← isRootComponent c
  if root then pure none
  else do
    let tp ← dictGet c "type"
    if !jsonEq tp (.str "machine-learning-model") then pure none
    else do
      let raw ← dictGetD c "name" (.str "")
      let modelName ← pyStripLower raw
      if rejected.contains modelName then do
        let ev ← dictGetD c "evidence" (.obj [])
        let occsJ ← dictGetD ev "occurrences" (.arr [])
        let occs ← pyIter occsJ
        let locs ← occLocations occs
        let locStr ← formatLocations locs
        let nm ← dictGetD c "name" (.str "Unknown Model")
        pure (some ⟨nm, targetName, locStr⟩)
      else pure none

/-- The policy rows contributed by a list of components. -/
def policyRowsOfComponents (rejected : List String) (targetName : Json) :
    List Json → Except PyErr (List ForbiddenRow)
  | [] => .ok []
  | c :: cs => do
    let r ← policyRowOfComponent rejected targetName c
    let tail ← policyRowsOfComponents rejected targetName cs
    pure (match r with | some row => row :: tail | none => tail)

/-- The `forbidden_found` list built by `_display_policy_validation`
(`output.py` lines 224-278). -/
def policyForbidden (rejected : List String) :
    List Json → Except PyErr (List ForbiddenRow)
  | [] => .ok []
  | e :: es => do
    let tn ← dictGetD e "target_name" (.str "Unknown Target")
    let ad ← dictGetD e "aibom_data" (.obj [])
    let compsJ ← extractComponents ad
    let comps ← pyIter compsJ
    let hd ← policyRowsOfComponents rejected tn comps
    let tl ← policyForbidden rejected es
    pure (hd ++ tl)

/-! ## Concrete configurations, targets and scripted responses used by the
theorems -/

/-- A client configured with an organization id (no group). -/
def testCfg : ClientCfg :=
  ⟨"https://api.snyk.io", some "org-1", none, "2025-07-22"⟩

/-- A client configured with a group id. -/
def groupCfg : ClientCfg :=
  ⟨"https://api.snyk.io", none, some "grp-1", "2025-07-22"⟩

/-- A well-formed target document with the fields the client reads. -/
def mkTarget (tid name orgId itype : String) : Json :=
  .obj [("id", .str tid),
        ("attributes", .obj [("display_name", .str name)]),
        ("relationships", .obj
          [("organization", .obj [("data", .obj [("id", .str orgId)])]),
           ("integration", .obj
             [("data", .obj [("attributes", .obj
               [("integration_type", .str itype)])])])])]

/-- The three eligible targets of the batch-isolation scenario. -/
def tgtA : Json := mkTarget "tgt-1" "repo-a" "org-1" "github"

/-- Second target of the batch-isolation scenario. -/
def tgtB : Json := mkTarget "tgt-2" "repo-b" "org-1" "gitlab"

/-- Third target of the batch-isolation scenario. -/
def tgtC : Json := mkTarget "tgt-3" "repo-c" "org-1" "github"

/-- The job-submission URL `process_target` posts to for `tgtA`. -/
def postUrlA : String := "https://api.snyk.io/rest/orgs/org-1/ai_boms?version=2025-07-22"

/-- The job self-link URL polled for the scripted submissions below. -/
def jobUrlA : String := "https://api.snyk.io/job/1"

/-- A successful job-submission response carrying status `st` and the job's
self-link. -/
def mkSubmitResp (st : String) : HttpResult :=
  .resp ⟨201, some (.obj
    [("data", .obj [("attributes", .obj [("status", .str st)])]),
     ("links", .obj [("self", .str "/job/1")])])⟩

/-- A successful poll response carrying status `st`. -/
def mkPollResp (st : String) : HttpResult :=
  .resp ⟨200, some (.obj
    [("data", .obj [("attributes", .obj [("status", .str st)])])])⟩

/-- A successful final artifact fetch returning `doc`. -/
def mkFinalResp (doc : Json) : HttpResult :=
  .resp ⟨200, some doc⟩

/-- The script of a whole job: submission carrying the first status, one
poll response per later status, then `tail`. -/
def mkJobScript (statuses : List String) (tail : List HttpResult) : List HttpResult :=
  match statuses with
  | [] => tail
  | s0 :: rest => mkSubmitResp s0 :: (rest.map mkPollResp ++ tail)

/-- A pagination envelope carrying `items` and a `links.next` value. -/
def mkPage (items : List Json) (next : String) : HttpResult :=
  .resp ⟨200, some (.obj [("data", .arr items), ("links", .obj [("next", .str next)])])⟩

/-- A pagination envelope carrying `items` and no `links.next`. -/
def mkLastPage (items : List Json) : HttpResult :=
  .resp ⟨200, some (.obj [("data", .arr items), ("links", .obj [])])⟩

/-- The nested (old) artifact shape: components under
`data.attributes.components`. -/
def nestedDoc (xs : List Json) : Json :=
  .obj [("data", .obj [("attributes", .obj [("components", .arr xs)])])]

/-- The top-level (new) artifact shape: components at the document root. -/
def topDoc (xs : List Json) : Json :=
  .obj [("components", .arr xs)]

/-- The synthetic generation-tool marker present in every artifact. -/
def rootComp : Json :=
  .obj [("name", .str "Root"), ("type", .str "application")]

/-- A component document with a name and a type (and no evidence). -/
def mkComp (name ty : String) : Json :=
  .obj [("name", .str name), ("type", .str ty)]

/-- An `all_aiboms` entry as built by `scan` (`cli.py` lines 240-243). -/
def mkEntry (tn : Json) (doc : Json) : Json :=
  .obj [("target_name", tn), ("aibom_data", doc)]

/-- Whether an `Except` result is a normal return (no exception). -/
def exceptIsOk {α : Type} : Except PyErr α → Bool
  | .ok _ => true
  | .error _ => false

/-- A submission/poll body carries the fields `process_target` subscripts:
`links.self` and `data.attributes.status`. -/
def hasJobFields (body : Json) : Bool :=
  exceptIsOk (jobFieldsOf body) && exceptIsOk (pollStatusOf body)

/-- A scripted response that cannot make `process_target` raise: a transport
error, an HTTP error status, the 422 skip, an undecodable body, or a body
with the expected job fields. -/
def wfResult : HttpResult → Bool
  | .exn => true
  | .resp r =>
    raisesForStatus r.status || r.status == 422 ||
      (match r.body with
       | none => true
       | some b => hasJobFields b)

/-- The action trace of `n` poll iterations against `jobUrl`. -/
def pollActs (jobUrl : String) (n : Nat) : List Action :=
  (List.replicate n [Action.sleep 2, Action.getNoRedirect jobUrl]).flatten

/-- The artifact fetched for the first target of the batch-isolation
scenario. -/
def docA : Json := nestedDoc [rootComp, mkComp "gpt-4" "machine-learning-model"]

/-- The artifact fetched for the third target of the batch-isolation
scenario. -/
def docC : Json := nestedDoc [rootComp, mkComp "bert" "machine-learning-model"]

/-- The scripted responses of the batch-isolation scenario: the first
target's job finishes at once, the second target's submission raises a
transport error, the third target's job finishes at once. -/
def batchScript : List HttpResult :=
  [mkSubmitResp "finished", mkFinalResp docA,
   .exn,
   mkSubmitResp "finished", mkFinalResp docC]

/-! ## Helper lemmas -/

/-- `Except` bind on a normal value reduces to the continuation. -/
@[simp] lemma exceptBind_ok {α β : Type} (v : α) (f : α → Except PyErr β) :
    (Except.ok v >>= f) = f v := rfl

/-- `Except` bind on an exception short-circuits. -/
@[simp] lemma exceptBind_error {α β : Type} (e : PyErr) (f : α → Except PyErr β) :
    ((Except.error e : Except PyErr α) >>= f) = Except.error e := rfl

/-- `d.get(k, default)` either returns a value or raises the
`AttributeError` of calling `.get` on a non-dict. -/
lemma dictGetD_ok_or_err (j : Json) (k : String) (d : Json) :
    (∃ v, dictGetD j k d = .ok v) ∨ dictGetD j k d = .error (.attributeError "get") := by
  cases j <;> simp [dictGetD]

/-- The nested `integration_type` lookup can only raise the `.get`
`AttributeError`. -/
lemma integrationTypeOf_error_shape (t : Json) (e : PyErr)
    (h : integrationTypeOf t = .error e) : e = .attributeError "get" := by
  unfold integrationTypeOf at h
  rcases dictGetD_ok_or_err t "relationships" (.obj []) with ⟨v₁, h₁⟩ | h₁ <;>
    simp only [h₁, exceptBind_ok, exceptBind_error] at h
  · rcases dictGetD_ok_or_err v₁ "integration" (.obj []) with ⟨v₂, h₂⟩ | h₂ <;>
      simp only [h₂, exceptBind_ok, exceptBind_error] at h
    · rcases dictGetD_ok_or_err v₂ "data" (.obj []) with ⟨v₃, h₃⟩ | h₃ <;>
        simp only [h₃, exceptBind_ok, exceptBind_error] at h
      · rcases dictGetD_ok_or_err v₃ "attributes" (.obj []) with ⟨v₄, h₄⟩ | h₄ <;>
          simp only [h₄, exceptBind_ok, exceptBind_error] at h
        · rcases dictGetD_ok_or_err v₄ "integration_type" .null with ⟨v₅, h₅⟩ | h₅ <;>
            rw [dictGet] at h <;> rw [h₅] at h
          · exact absurd h (by simp)
          · exact (Except.error.inj h).symm
        · exact (Except.error.inj h).symm
      · exact (Except.error.inj h).symm
    · exact (Except.error.inj h).symm
  · exact (Except.error.inj h).symm

/-- Python `x in [strings]` is true exactly on list membership. -/
lemma pyInStrList_true_iff (s : String) (l : List String) :
    pyInStrList (.str s) l = true ↔ s ∈ l := by
  induction l with
  | nil => simp [pyInStrList]
  | cons x xs ih =>
    simp only [pyInStrList, List.any_cons, jsonEq, Bool.or_eq_true,
      beq_iff_eq, List.mem_cons] at ih ⊢
    rw [ih]

/-! ## Claim theorems -/

/-- C6: a job-submission response with HTTP status 422 makes
`process_target` return the empty result immediately: the action trace is
the single POST (no sleep, no poll, no artifact fetch), the remaining
script is untouched, and the result is the benign empty list, whatever the
response body and whatever comes later in the script. -/
theorem claim6_unprocessable_422_skips (tid nm org itype : String)
    (body : Option Json) (rest : List HttpResult) :
    process_target testCfg (mkTarget tid nm org itype)
        (.resp ⟨422, body⟩ :: rest) =
      ([Action.post (testCfg.apiUrl ++ "/rest/orgs/" ++ org
          ++ "/ai_boms?version=" ++ testCfg.apiVersion)], rest, .ok (.arr [])) := by
  rfl

/-- C9: the `Config` dataclass defines no `supported_integrations`
attribute, so the `search` flow's classifier check raises `AttributeError`
on the first target of every non-empty target list (the lookup's
`AttributeError` when the target's integration metadata is readable, and in
every case some `AttributeError`): the loop never returns normally on a
non-empty list. -/
theorem claim9_search_attribute_error :
    configHasAttr "supported_integrations" = false ∧
    (∀ (t : Json) (ts : List Json), exceptIsOk (integrationTypeOf t) = true →
      searchLoop (t :: ts) = .error (.attributeError "supported_integrations")) ∧
    (∀ (t : Json) (ts : List Json), ∃ a,
      searchLoop (t :: ts) = .error (.attributeError a)) := by
  refine ⟨by decide, ?_, ?_⟩
  · intro t ts h
    cases hit : integrationTypeOf t with
    | ok v =>
      simp [searchLoop, searchClassify, hit, configAttrLookup, configHasAttr,
        configAttrNames]
    | error e => simp [exceptIsOk, hit] at h
  · intro t ts
    cases hit : integrationTypeOf t with
    | ok v =>
      exact ⟨"supported_integrations",
        by simp [searchLoop, searchClassify, hit, configAttrLookup,
          configHasAttr, configAttrNames]⟩
    | error e =>
      refine ⟨"get", ?_⟩
      have he := integrationTypeOf_error_shape t e hit
      subst he
      simp [searchLoop, searchClassify, hit]

/-- C9 witness: on a concrete well-formed target the search loop raises
the `supported_integrations` `AttributeError`. -/
theorem claim9_search_attribute_error_witness :
    searchLoop [mkTarget "t1" "repo" "org-1" "github"] =
      .error (.attributeError "supported_integrations") :=
  claim9_search_attribute_error.2.1 (mkTarget "t1" "repo" "org-1" "github") []
    (by rfl)

/-- A non-terminal status string fails the terminal test. -/
lemma isTerminalStatus_false (s : String) (h1 : s ≠ "finished") (h2 : s ≠ "errored") :
    isTerminalStatus (.str s) = false := by
  simp [isTerminalStatus, jsonEq, h1, h2]

/-- The poll loop exits immediately on a terminal status. -/
lemma pollLoop_terminal (u : String) (script : List HttpResult) (st : Json)
    (h : isTerminalStatus st = true) :
    pollLoop u script st = ([], script, .ok (some st)) := by
  cases script <;> · rw [pollLoop.eq_def]; simp [h]

/-- One non-terminal iteration of the poll loop: sleep, poll, continue with
the scripted status. -/
lemma pollLoop_step (u : String) (s s' : String) (rest : List HttpResult)
    (h1 : s ≠ "finished") (h2 : s ≠ "errored") :
    pollLoop u (mkPollResp s' :: rest) (.str s) =
      (Action.sleep 2 :: Action.getNoRedirect u :: (pollLoop u rest (.str s')).1,
        (pollLoop u rest (.str s')).2) := by
  rw [pollLoop.eq_def]
  simp [isTerminalStatus_false s h1 h2, mkPollResp, raisesForStatus,
    pollStatusOf, subscript, lookupField]

/-- Running the poll loop over a script of one poll response per status,
all non-terminal except a final terminal one: the loop performs one
sleep-and-poll pair per non-terminal status and exits with the terminal
status, leaving the remaining script untouched. -/
lemma pollLoop_scripted (u : String) (pre : List String) (t s0 : String)
    (rest : List HttpResult)
    (hpre : ∀ x ∈ pre, x ≠ "finished" ∧ x ≠ "errored")
    (hs0 : s0 ≠ "finished" ∧ s0 ≠ "errored")
    (ht : isTerminalStatus (.str t) = true) :
    pollLoop u (pre.map mkPollResp ++ mkPollResp t :: rest) (.str s0) =
      (pollActs u (pre.length + 1), rest, .ok (some (.str t))) := by
  induction pre generalizing s0 with
  | nil =>
    rw [List.map_nil, List.nil_append, pollLoop_step u s0 t rest hs0.1 hs0.2,
      pollLoop_terminal u rest (.str t) ht]
    simp [pollActs]
  | cons x xs ih =>
    rw [List.map_cons, List.cons_append, pollLoop_step u s0 x _ hs0.1 hs0.2,
      ih x (fun y hy => hpre y (List.mem_cons_of_mem x hy)) (hpre x (List.mem_cons_self x xs))]
    simp [pollActs, List.replicate_succ]

/-- `process_target` on a successful scripted submission reduces to the
poll loop followed by terminal handling. -/
lemma process_target_submit_stage (s0 : String) (tail : List HttpResult) :
    process_target testCfg tgtA (mkSubmitResp s0 :: tail) =
      (let out := pollLoop jobUrlA tail (.str s0)
       match out.2.2 with
       | .error e => (Action.post postUrlA :: out.1, out.2.1, .error e)
       | .ok none => (Action.post postUrlA :: out.1, out.2.1, .ok (.arr []))
       | .ok (some stT) =>
         if jsonEq stT (.str "errored") then
           (Action.post postUrlA :: out.1, out.2.1, .ok (.arr []))
         else
           let fin := finalFetch jobUrlA out.2.1
           (Action.post postUrlA :: out.1 ++ fin.1, fin.2)) := by
  rfl

/-- C3: for a job whose scripted statuses are the non-terminal `pre`
followed by one terminal status, `process_target` performs exactly one
submission POST, then one sleep-2-and-non-redirect-poll pair per
non-terminal status; when the terminal status is "finished" it performs
exactly one extra redirect-following GET of the job's self-link and returns
that response's parsed body, and when it is "errored" it returns the empty
result with no final fetch. -/
theorem claim3_job_state_convergence (pre : List String) (t : String) (doc : Json)
    (hpre : ∀ x ∈ pre, x ≠ "finished" ∧ x ≠ "errored") :
    (t = "finished" →
      process_target testCfg tgtA (mkJobScript (pre ++ [t]) [mkFinalResp doc]) =
        (Action.post postUrlA ::
            (pollActs jobUrlA pre.length ++ [Action.getRedirect jobUrlA]),
          [], .ok doc)) ∧
    (t = "errored" →
      process_target testCfg tgtA (mkJobScript (pre ++ [t]) []) =
        (Action.post postUrlA :: pollActs jobUrlA pre.length, [], .ok (.arr []))) := by
  constructor
  · intro ht
    subst ht
    cases pre with
    | nil =>
      rw [show mkJobScript ([] ++ ["finished"]) [mkFinalResp doc] =
          mkSubmitResp "finished" :: [mkFinalResp doc] from rfl,
        process_target_submit_stage]
      rw [pollLoop_terminal _ _ _ (by rfl)]
      simp [pollActs, finalFetch, mkFinalResp, raisesForStatus, jsonEq]
    | cons s0 pre' =>
      rw [show mkJobScript ((s0 :: pre') ++ ["finished"]) [mkFinalResp doc] =
          mkSubmitResp s0 ::
            (pre'.map mkPollResp ++ mkPollResp "finished" :: [mkFinalResp doc]) by
          simp [mkJobScript],
        process_target_submit_stage,
        pollLoop_scripted jobUrlA pre' "finished" s0 [mkFinalResp doc]
          (fun y hy => hpre y (List.mem_cons_of_mem s0 hy))
          (hpre s0 (List.mem_cons_self s0 pre')) (by rfl)]
      simp [pollActs, finalFetch, mkFinalResp, raisesForStatus, jsonEq,
        List.replicate_succ]
  · intro ht
    subst ht
    cases pre with
    | nil =>
      rw [show mkJobScript ([] ++ ["errored"]) [] = [mkSubmitResp "errored"] from rfl,
        process_target_submit_stage]
      rw [pollLoop_terminal _ _ _ (by rfl)]
      simp [pollActs, jsonEq]
    | cons s0 pre' =>
      rw [show mkJobScript ((s0 :: pre') ++ ["errored"]) [] =
          mkSubmitResp s0 :: (pre'.map mkPollResp ++ mkPollResp "errored" :: []) by
          simp [mkJobScript],
        process_target_submit_stage,
        pollLoop_scripted jobUrlA pre' "errored" s0 []
          (fun y hy => hpre y (List.mem_cons_of_mem s0 hy))
          (hpre s0 (List.mem_cons_self s0 pre')) (by rfl)]
      simp [pollActs, jsonEq, List.replicate_succ]

/-- C3 witness: a concrete job with two non-terminal polls then
"finished". -/
theorem claim3_job_state_convergence_witness :
    process_target testCfg tgtA
        (mkJobScript ["processing", "processing", "finished"] [mkFinalResp docA]) =
      (Action.post postUrlA ::
          (pollActs jobUrlA 2 ++ [Action.getRedirect jobUrlA]), [], .ok docA) :=
  (claim3_job_state_convergence ["processing", "processing"] "finished" docA
    (by intro x hx; fin_cases hx <;> exact ⟨by decide, by decide⟩)).1 rfl

/-- C7: the target classifier returns true exactly when the string at
`relationships.integration.data.attributes.integration_type` is in the
fixed allow-list (the nine-element list for the `scan` command, the
five-element list for the `main.py` variant); targets missing any
intermediate key classify as false without an error; and a false
classification means the per-target step performs no HTTP action and
consumes no scripted response, so the orchestrator is never invoked. -/
theorem claim7_classifier_allow_list (s tid nm org : String) :
    (isSupportedScan (mkTarget tid nm org s) = .ok true ↔
      s ∈ ["github", "github-enterprise", "github-cloud-app",
        "github-server-app", "gitlab", "azure-repos", "bitbucket-cloud",
        "bitbucket-server", "bitbucket-cloud-app"]) ∧
    (isSupportedMain (mkTarget tid nm org s) = .ok true ↔
      s ∈ ["github", "github-enterprise", "gitlab", "azure-repos",
        "bitbucket-cloud"]) ∧
    isSupportedScan (.obj []) = .ok false ∧
    isSupportedScan (.obj [("relationships", .obj [])]) = .ok false ∧
    isSupportedScan (.obj [("relationships", .obj [("integration", .obj [])])]) =
      .ok false ∧
    isSupportedScan (.obj [("relationships", .obj [("integration",
      .obj [("data", .obj [])])])]) = .ok false ∧
    isSupportedScan (.obj [("relationships", .obj [("integration",
      .obj [("data", .obj [("attributes", .obj [])])])])]) = .ok false ∧
    (∀ (t : Json) (script : List HttpResult), isSupportedScan t = .ok false →
      (scanTargetStep testCfg t script).1 = [] ∧
      (scanTargetStep testCfg t script).2.1 = script) := by
  refine ⟨?_, ?_, by rfl, by rfl, by rfl, by rfl, by rfl, ?_⟩
  · rw [show isSupportedScan (mkTarget tid nm org s) =
      .ok (pyInStrList (.str s) scanAllowList) from rfl]
    simp only [Except.ok.injEq]
    rw [pyInStrList_true_iff]
    exact Iff.rfl
  · rw [show isSupportedMain (mkTarget tid nm org s) =
      .ok (pyInStrList (.str s) mainAllowList) from rfl]
    simp only [Except.ok.injEq]
    rw [pyInStrList_true_iff]
    exact Iff.rfl
  · intro t script h
    cases hname : (do
        let attrs ← subscript t "attributes"
        dictGetD attrs "display_name" (.str "Unknown Name") :
          Except PyErr Json) with
    | error e => constructor <;> simp [scanTargetStep, hname]
    | ok name => constructor <;> simp [scanTargetStep, hname, h]

/-- C7 witness: a "docker" target is classified false and triggers no HTTP
action. -/
theorem claim7_classifier_allow_list_witness :
    (scanTargetStep testCfg (mkTarget "t9" "repo-d" "org-1" "docker")
        [HttpResult.exn]).1 = [] ∧
    (scanTargetStep testCfg (mkTarget "t9" "repo-d" "org-1" "docker")
        [HttpResult.exn]).2.1 = [HttpResult.exn] :=
  (claim7_classifier_allow_list "docker" "t9" "repo-d" "org-1").2.2.2.2.2.2.2
    (mkTarget "t9" "repo-d" "org-1" "docker") [HttpResult.exn] (by rfl)

/-- A result that is ok carries a value. -/
lemma exceptIsOk_exists {α : Type} {x : Except PyErr α}
    (h : exceptIsOk x = true) : ∃ v, x = .ok v := by
  cases x with
  | ok v => exact ⟨v, rfl⟩
  | error e => simp [exceptIsOk] at h

/-- The final redirect-following fetch never raises: every outcome is a
normal return. -/
lemma finalFetch_ok (u : String) (script : List HttpResult) :
    exceptIsOk (finalFetch u script).2.2 = true := by
  match script with
  | [] => rfl
  | .exn :: rest => rfl
  | .resp r :: rest =>
    rw [finalFetch]
    by_cases hr : raisesForStatus r.status = true
    · simp [hr, exceptIsOk]
    · cases hb : r.body <;> simp [hr, hb, exceptIsOk]

/-- The poll loop never raises when every scripted response is
well-formed. -/
lemma pollLoop_wf (u : String) (script : List HttpResult) (st : Json)
    (h : script.all wfResult = true) :
    exceptIsOk (pollLoop u script st).2.2 = true := by
  induction script generalizing st with
  | nil =>
    by_cases hterm : isTerminalStatus st = true <;>
      simp [pollLoop.eq_def, hterm, exceptIsOk]
  | cons r rest ih =>
    rw [List.all_cons, Bool.and_eq_true] at h
    obtain ⟨hr, hrest⟩ := h
    by_cases hterm : isTerminalStatus st = true
    · simp [pollLoop_terminal u _ st hterm, exceptIsOk]
    · rw [pollLoop.eq_def]
      simp only [Bool.not_eq_true] at hterm
      simp only [hterm, Bool.false_eq_true, if_false]
      cases r with
      | exn => simp [exceptIsOk]
      | resp rr =>
        by_cases hraise : raisesForStatus rr.status = true
        · simp [hraise, exceptIsOk]
        · simp only [Bool.not_eq_true] at hraise
          simp only [hraise, Bool.false_eq_true, if_false]
          cases hb : rr.body with
          | none => simp [exceptIsOk]
          | some rd =>
            rw [wfResult] at hr
            rw [hraise, hb] at hr
            have h422 : (rr.status == 422) = false := by
              by_contra hc
              simp only [Bool.not_eq_false, beq_iff_eq] at hc
              rw [hc] at hraise
              exact absurd hraise (by decide)
            rw [h422] at hr
            simp only [Bool.false_or] at hr
            rw [hasJobFields, Bool.and_eq_true] at hr
            obtain ⟨v, hv⟩ := exceptIsOk_exists hr.2
            dsimp only
            rw [hv]
            simpa using ih v hrest

/-- C1 (amended): as long as every scripted 2xx/3xx response body that
`process_target` parses carries the job fields it subscripts, the function
never raises: transport errors, HTTP error statuses, the 422 skip and
undecodable bodies all degrade to a normal return (the artifact or the
empty list).  Moreover, in the concrete three-target batch in which the
second target's submission raises a transport error, the coordinator loop
finishes normally with entries for the first and third target exactly, in
that order. -/
theorem claim1_isolation_no_raise :
    (∀ (tid nm org itype : String) (script : List HttpResult),
      script.all wfResult = true →
      exceptIsOk
        (process_target testCfg (mkTarget tid nm org itype) script).2.2 = true) ∧
    (scanLoop testCfg [tgtA, tgtB, tgtC] batchScript).2.2 =
      .ok [(.str "repo-a", docA), (.str "repo-c", docC)] := by
  constructor
  · intro tid nm org itype script hwf
    rw [process_target]
    rw [show processTargetFields (mkTarget tid nm org itype) = .ok (.str org)
      from rfl]
    match script, hwf with
    | [], _ => rfl
    | .exn :: rest, _ => rfl
    | .resp rr :: rest, hwf =>
      rw [List.all_cons, Bool.and_eq_true] at hwf
      obtain ⟨hr, hrest⟩ := hwf
      by_cases h422 : rr.status = 422
      · simp [h422, exceptIsOk]
      · by_cases hraise : raisesForStatus rr.status = true
        · simp [h422, hraise, exceptIsOk]
        · simp only [Bool.not_eq_true] at hraise
          simp only [h422, if_false, hraise, Bool.false_eq_true]
          cases hb : rr.body with
          | none => simp [exceptIsOk]
          | some postData =>
            rw [wfResult, hraise, hb] at hr
            have h422b : (rr.status == 422) = false := by
              simpa using h422
            rw [h422b] at hr
            simp only [Bool.false_or] at hr
            rw [hasJobFields, Bool.and_eq_true] at hr
            obtain ⟨⟨selfLink, st0⟩, hv⟩ := exceptIsOk_exists hr.1
            dsimp only
            rw [hv]
            have hpoll := pollLoop_wf (testCfg.apiUrl ++ pyStr selfLink)
              rest st0 hrest
            obtain ⟨polled, hpolled⟩ := exceptIsOk_exists hpoll
            dsimp only
            rw [hpolled]
            match polled with
            | none => simp [exceptIsOk]
            | some stT =>
              by_cases herr : jsonEq stT (.str "errored") = true
              · simp [herr, exceptIsOk]
              · simp only [Bool.not_eq_true] at herr
                simp only [herr, Bool.false_eq_true, if_false]
                exact finalFetch_ok _ _
  · rfl

/-- C1 witness: a concrete well-formed script (submission finishing at
once, then a transport error on the artifact fetch) on which
`process_target` returns normally. -/
theorem claim1_isolation_no_raise_witness :
    [mkSubmitResp "finished", HttpResult.exn].all wfResult = true ∧
    exceptIsOk (process_target testCfg (mkTarget "tgt-1" "repo-a" "org-1" "github")
      [mkSubmitResp "finished", HttpResult.exn]).2.2 = true :=
  ⟨by rfl, claim1_isolation_no_raise.1 "tgt-1" "repo-a" "org-1" "github"
    [mkSubmitResp "finished", HttpResult.exn] (by rfl)⟩

/-- C1 counterexample: a 2xx submission response whose JSON body is an
empty object makes `process_target` raise `KeyError('links')` to its
caller — the claim's "responses missing expected JSON fields ... never
raises an exception to its caller" is false on the code. -/
theorem claim1_missing_fields_raises :
    (process_target testCfg tgtA [.resp ⟨200, some (.obj [])⟩]).2.2 =
      .error (.keyError "links") := by
  rfl

/-- Appending a non-empty string yields a non-empty string. -/
lemma append_ne_empty (s t : String) (h : t ≠ "") : s ++ t ≠ "" := by
  intro hc
  apply h
  have hl := congrArg String.length hc
  rw [String.length_append, show ("" : String).length = 0 from rfl] at hl
  have ht : t.length = 0 := by omega
  exact String.ext (by simpa [String.length] using List.length_eq_zero.mp ht)

/-- A failing page response: a transport error or an HTTP error status. -/
def isHttpFailure : HttpResult → Bool
  | .exn => true
  | .resp r => raisesForStatus r.status

/-- The targets pagination loop, hitting a failing response after any
number of chained good pages, abandons everything accumulated so far and
returns Python `None` (`.ok none`), leaving the script after the failure
untouched — a caught, handled failure, not an exception. -/
lemma targetsPagesLoop_failure (apiUrl : String) (pages : List (List Json × String))
    (hpages : ∀ p ∈ pages, p.2 ≠ "") (bad : HttpResult)
    (hbad : isHttpFailure bad = true) :
    ∀ (rest : List HttpResult) (url : String) (acc : List Json), url ≠ "" →
    (targetsPagesLoop apiUrl
        (pages.map (fun p => mkPage p.1 p.2) ++ bad :: rest) url acc).2 =
      (rest, .ok none) := by
  induction pages with
  | nil =>
    intro rest url acc hurl
    rw [List.map_nil, List.nil_append, targetsPagesLoop.eq_def]
    cases bad with
    | exn => simp [hurl]
    | resp rr =>
      rw [isHttpFailure] at hbad
      simp [hurl, hbad]
  | cons p ps ih =>
    intro rest url acc hurl
    rw [List.map_cons, List.cons_append, targetsPagesLoop.eq_def]
    have hnext : p.2 ≠ "" := hpages p (List.mem_cons_self p ps)
    simp only [hurl, if_false, mkPage, raisesForStatus]
    simp only [show ¬(400 ≤ 200 ∧ 200 < 600) by omega, decide_eq_true_eq,
      Bool.and_eq_true, decide_eq_true_eq]
    simp [dictGetD, dictGet, lookupField, pyExtend, pyTruthy, pyStr, hnext]
    simpa [mkPage] using ih (fun q hq => hpages q (List.mem_cons_of_mem p hq))
      rest (apiUrl ++ p.2) (acc ++ p.1) (append_ne_empty apiUrl p.2 hnext)

/-- The organizations pagination loop, hitting a failing response after any
number of chained good pages, raises: the `RequestException` propagates to
the caller (there is no handler in `get_all_orgs_from_group`), so the
caller receives neither the accumulated items nor a no-data value. -/
lemma orgsPagesLoop_failure (pages : List (List Json × String))
    (hpages : ∀ p ∈ pages, p.2 ≠ "") (bad : HttpResult)
    (hbad : isHttpFailure bad = true) :
    ∀ (rest : List HttpResult) (u : String) (acc : List Json), u ≠ "" →
    (orgsPagesLoop (pages.map (fun p => mkPage p.1 p.2) ++ bad :: rest)
        (.str u) acc).2 =
      (rest, .error .requestError) := by
  induction pages with
  | nil =>
    intro rest u acc hu
    rw [List.map_nil, List.nil_append, orgsPagesLoop.eq_def]
    cases bad with
    | exn => simp [pyTruthy, hu]
    | resp rr =>
      rw [isHttpFailure] at hbad
      simp [pyTruthy, hu, hbad]
  | cons p ps ih =>
    intro rest u acc hu
    rw [List.map_cons, List.cons_append, orgsPagesLoop.eq_def]
    have hnext : p.2 ≠ "" := hpages p (List.mem_cons_self p ps)
    simp only [pyTruthy, hu, bne_self_eq_false, ne_eq, if_true, mkPage,
      raisesForStatus]
    simp only [show ¬(400 ≤ 200 ∧ 200 < 600) by omega, decide_eq_true_eq,
      Bool.and_eq_true, decide_eq_true_eq]
    simp [dictGetD, dictGet, lookupField, pyExtend, pyTruthy, hu]
    simpa [mkPage] using ih (fun q hq => hpages q (List.mem_cons_of_mem p hq))
      rest p.2 (acc ++ p.1) hnext

/-- C2 (amended): a failing response on any page — the first included —
of an organization's targets fetch makes `get_all_targets_from_org`'s loop
abandon the fetch and return Python `None`, never a partial list, with the
exception handled internally; a failing response on any page of the
group's organizations fetch also yields no partial list, but by an
exception propagating out of `get_all_orgs_from_group`; and when the
targets fetch of the second of two organizations fails, `get_all_targets`
raises `TypeError` (extending the target list by `None`) instead of
returning data — so in every case the caller gets no partial list, but
only the per-organization targets loop signals failure by a handled
no-data return. -/
theorem claim2_pagination_total_failure :
    (∀ (apiUrl : String) (pages : List (List Json × String))
        (bad : HttpResult) (rest : List HttpResult) (url : String)
        (acc : List Json),
      (∀ p ∈ pages, p.2 ≠ "") → isHttpFailure bad = true → url ≠ "" →
      (targetsPagesLoop apiUrl
          (pages.map (fun p => mkPage p.1 p.2) ++ bad :: rest) url acc).2 =
        (rest, .ok none)) ∧
    (∀ (pages : List (List Json × String)) (bad : HttpResult)
        (rest : List HttpResult) (u : String) (acc : List Json),
      (∀ p ∈ pages, p.2 ≠ "") → isHttpFailure bad = true → u ≠ "" →
      (orgsPagesLoop (pages.map (fun p => mkPage p.1 p.2) ++ bad :: rest)
          (.str u) acc).2 =
        (rest, .error .requestError)) ∧
    (get_all_targets groupCfg
        [mkLastPage [.obj [("id", .str "o1")], .obj [("id", .str "o2")]],
         mkLastPage [mkTarget "t1" "r1" "o1" "github"],
         .exn]).2.2 =
      .error .typeError := by
  refine ⟨?_, ?_, by rfl⟩
  · intro apiUrl pages bad rest url acc hpages hbad hurl
    exact targetsPagesLoop_failure apiUrl pages hpages bad hbad rest url acc hurl
  · intro pages bad rest u acc hpages hbad hu
    exact orgsPagesLoop_failure pages hpages bad hbad rest u acc hu

/-- C2 witness: a concrete error on the second page of a targets fetch
yields the handled no-data return, and a concrete first-page error on an
orgs fetch yields the propagating exception. -/
theorem claim2_pagination_total_failure_witness :
    (targetsPagesLoop "https://api.snyk.io"
        [mkPage [mkTarget "t1" "r1" "o1" "github"] "/page2",
         .resp ⟨500, none⟩]
        "https://api.snyk.io/rest/orgs/o1/targets?version=2025-07-22&limit=100"
        []).2 =
      ([], .ok none) ∧
    (orgsPagesLoop [.resp ⟨503, none⟩]
        (.str "https://api.snyk.io/rest/groups/grp-1/orgs?version=2025-07-22&limit=100")
        []).2 =
      ([], .error .requestError) :=
  ⟨claim2_pagination_total_failure.1 "https://api.snyk.io"
      [([mkTarget "t1" "r1" "o1" "github"], "/page2")] (.resp ⟨500, none⟩) []
      "https://api.snyk.io/rest/orgs/o1/targets?version=2025-07-22&limit=100" []
      (by intro p hp; fin_cases hp; decide) (by rfl) (by decide),
    claim2_pagination_total_failure.2.1 [] (.resp ⟨503, none⟩) []
      "https://api.snyk.io/rest/groups/grp-1/orgs?version=2025-07-22&limit=100" []
      (by intro p hp; cases hp) (by rfl) (by decide)⟩

/-- C2 counterexample: an error on the very first page of the
group-organizations fetch does not give the caller a handled "no data"
return — `get_all_orgs_from_group` raises, falsifying the claim's
"without an unhandled exception" for that fetch. -/
theorem claim2_orgs_fetch_raises :
    (get_all_orgs_from_group groupCfg [.resp ⟨500, none⟩]).2.2 =
      .error .requestError := by
  rfl

/-- A page without `links.next` ends the targets loop with the items
accumulated so far. -/
lemma targetsPagesLoop_lastPage (apiUrl : String) (items : List Json)
    (rest : List HttpResult) (url : String) (acc : List Json) (hurl : url ≠ "") :
    targetsPagesLoop apiUrl (mkLastPage items :: rest) url acc =
      ([.get url], rest, .ok (some (acc ++ items))) := by
  rw [targetsPagesLoop.eq_def]
  simp [hurl, mkLastPage, raisesForStatus, dictGetD, dictGet, lookupField,
    pyExtend, pyTruthy, show ¬(400 ≤ 200 ∧ 200 < 600) by omega]

/-- The organizations loop returns at once on a falsy URL value. -/
lemma orgsPagesLoop_falsy (script : List HttpResult) (url : Json)
    (acc : List Json) (h : pyTruthy url = false) :
    orgsPagesLoop script url acc = ([], script, .ok acc) := by
  rw [orgsPagesLoop.eq_def]
  simp [h]

/-- A page without `links.next` ends the organizations loop with the items
accumulated so far. -/
lemma orgsPagesLoop_lastPage (items : List Json) (rest : List HttpResult)
    (u : String) (acc : List Json) (hu : u ≠ "") :
    orgsPagesLoop (mkLastPage items :: rest) (.str u) acc =
      ([.get u], rest, .ok (acc ++ items)) := by
  rw [orgsPagesLoop.eq_def]
  simp [pyTruthy, hu, mkLastPage, raisesForStatus, dictGetD, dictGet,
    lookupField, pyExtend, show ¬(400 ≤ 200 ∧ 200 < 600) by omega,
    orgsPagesLoop_falsy rest .null (acc ++ items) (by rfl)]

/-- C4 (amended): on a page carrying a `links.next` value, the targets
fetch requests next the relative link resolved against the API base URL,
while the organizations fetch requests the `links.next` value as-is,
unresolved; in both loops, a page without `links.next` stops the loop with
the items accumulated so far. -/
theorem claim4_next_link_handling :
    (∀ (apiUrl : String) (items1 items2 : List Json) (next : String)
        (rest : List HttpResult) (url : String) (acc : List Json),
      url ≠ "" → next ≠ "" →
      targetsPagesLoop apiUrl (mkPage items1 next :: mkLastPage items2 :: rest)
          url acc =
        ([.get url, .get (apiUrl ++ next)], rest,
          .ok (some (acc ++ items1 ++ items2)))) ∧
    (∀ (items1 items2 : List Json) (next : String) (rest : List HttpResult)
        (u : String) (acc : List Json),
      u ≠ "" → next ≠ "" →
      orgsPagesLoop (mkPage items1 next :: mkLastPage items2 :: rest)
          (.str u) acc =
        ([.get u, .get next], rest, .ok (acc ++ items1 ++ items2))) := by
  constructor
  · intro apiUrl items1 items2 next rest url acc hurl hnext
    rw [targetsPagesLoop.eq_def]
    simp [hurl, mkPage, raisesForStatus, dictGetD, dictGet, lookupField,
      pyExtend, pyTruthy, pyStr, hnext,
      show ¬(400 ≤ 200 ∧ 200 < 600) by omega,
      targetsPagesLoop_lastPage apiUrl items2 rest (apiUrl ++ next)
        (acc ++ items1) (append_ne_empty apiUrl next hnext)]
  · intro items1 items2 next rest u acc hu hnext
    rw [orgsPagesLoop.eq_def]
    simp [pyTruthy, hu, mkPage, raisesForStatus, dictGetD, dictGet,
      lookupField, pyExtend, pyStr, hnext,
      show ¬(400 ≤ 200 ∧ 200 < 600) by omega,
      orgsPagesLoop_lastPage items2 rest next (acc ++ items1) hnext]

/-- C4 witness: a concrete two-page fetch in each loop. -/
theorem claim4_next_link_handling_witness :
    targetsPagesLoop "https://api.snyk.io"
        [mkPage [mkTarget "t1" "r1" "o1" "github"] "/page2", mkLastPage []]
        "https://api.snyk.io/rest/orgs/o1/targets?version=2025-07-22&limit=100"
        [] =
      ([.get "https://api.snyk.io/rest/orgs/o1/targets?version=2025-07-22&limit=100",
        .get ("https://api.snyk.io" ++ "/page2")], [],
        .ok (some ([] ++ [mkTarget "t1" "r1" "o1" "github"] ++ []))) ∧
    orgsPagesLoop [mkPage [.obj [("id", .str "o1")]] "/page2", mkLastPage []]
        (.str "https://api.snyk.io/rest/groups/grp-1/orgs?version=2025-07-22&limit=100")
        [] =
      ([.get "https://api.snyk.io/rest/groups/grp-1/orgs?version=2025-07-22&limit=100",
        .get "/page2"], [], .ok ([] ++ [.obj [("id", .str "o1")]] ++ [])) :=
  ⟨claim4_next_link_handling.1 "https://api.snyk.io"
      [mkTarget "t1" "r1" "o1" "github"] [] "/page2" []
      "https://api.snyk.io/rest/orgs/o1/targets?version=2025-07-22&limit=100" []
      (by decide) (by decide),
    claim4_next_link_handling.2 [.obj [("id", .str "o1")]] [] "/page2" []
      "https://api.snyk.io/rest/groups/grp-1/orgs?version=2025-07-22&limit=100" []
      (by decide) (by decide)⟩

/-- C4 counterexample: in the organizations fetch the second request's URL
is the relative `links.next` value itself, which differs from that value
resolved against the API's base URL — falsifying the claim's "in both
paginated resources ... the next request URL is the relative next link
resolved against the API's base URL". -/
theorem claim4_orgs_next_not_resolved :
    (orgsPagesLoop [mkPage [] "/page2", .exn]
        (.str "https://api.snyk.io/rest/groups/grp-1/orgs?version=2025-07-22&limit=100")
        []).1 =
      [.get "https://api.snyk.io/rest/groups/grp-1/orgs?version=2025-07-22&limit=100",
       .get "/page2"] ∧
    Action.get "/page2" ≠ Action.get (groupCfg.apiUrl ++ "/page2") := by
  exact ⟨by rfl, by decide⟩

/-- Extraction yields the same component list from either artifact
shape. -/
lemma extractComponents_nested (xs : List Json) :
    extractComponents (nestedDoc xs) = .ok (.arr xs) := by
  rfl

/-- Extraction from the top-level shape. -/
lemma extractComponents_top (xs : List Json) :
    extractComponents (topDoc xs) = .ok (.arr xs) := by
  rfl

/-- C5 (amended): the summary renderer, the per-type statistics and the
policy-violation check each produce identical aggregates for the same
component list presented in either historical artifact shape; the `scan`
command's per-target component count works only on the nested shape — on a
top-level-shape artifact its bracket subscripts raise `KeyError('data')`. -/
theorem claim5_artifact_shapes :
    (∀ (included : Option (List String)) (tn : Json) (xs : List Json),
      summaryRowsOfEntry included (mkEntry tn (nestedDoc xs)) =
        summaryRowsOfEntry included (mkEntry tn (topDoc xs))) ∧
    (∀ (included : Option (List String)) (tn : Json) (xs : List Json)
        (counts : List (Json × Nat)),
      typeStats included [mkEntry tn (nestedDoc xs)] counts =
        typeStats included [mkEntry tn (topDoc xs)] counts) ∧
    (∀ (rejected : List String) (tn : Json) (xs : List Json),
      policyForbidden rejected [mkEntry tn (nestedDoc xs)] =
        policyForbidden rejected [mkEntry tn (topDoc xs)]) ∧
    (∀ (xs : List Json),
      componentCount (nestedDoc xs) = .ok ((xs.length : Int) - 1)) ∧
    (∀ (xs : List Json),
      componentCount (topDoc xs) = .error (.keyError "data")) := by
  refine ⟨?_, ?_, ?_, fun xs => rfl, fun xs => rfl⟩
  · intro included tn xs
    simp [summaryRowsOfEntry, mkEntry, dictGetD, lookupField,
      extractComponents_nested, extractComponents_top]
  · intro included tn xs counts
    simp [typeStats, mkEntry, dictGetD, lookupField,
      extractComponents_nested, extractComponents_top]
  · intro rejected tn xs
    simp [policyForbidden, mkEntry, dictGetD, lookupField,
      extractComponents_nested, extractComponents_top]

/-- C5 counterexample: a finished job whose artifact arrives in the
top-level shape makes the `scan` command's per-target handling raise
`KeyError('data')` (reaching the command's blanket handler), so not every
consumer accepts both shapes without raising. -/
theorem claim5_scan_rejects_top_shape :
    (scanTargetStep testCfg tgtA
        [mkSubmitResp "finished",
         mkFinalResp (topDoc [mkComp "x" "library"])]).2.2 =
      .error (.keyError "data") := by
  rfl

/-- The Root-application test on a constructed component. -/
lemma isRootComponent_mkComp (n t : String) :
    isRootComponent (mkComp n t) = .ok ((n == "Root") && (t == "application")) := by
  by_cases hn : n = "Root" <;>
    simp [isRootComponent, mkComp, dictGet, dictGetD, lookupField, jsonEq, hn,
      pure, Except.pure]

/-- A non-root constructed component yields exactly one summary row (no
include filter). -/
lemma componentRow_mkComp (tn : Json) (n t : String)
    (h : ¬(n = "Root" ∧ t = "application")) :
    componentRow none tn (mkComp n t) =
      .ok (some ⟨.str n, tn, (if t = "machine-learning-model" then "ML Model"
        else if t = "data" then "Dataset"
        else if t = "library" then "Library"
        else if t = "application" then "Application"
        else pyTitle t), "No source locations"⟩) := by
  have hroot : ((n == "Root") && (t == "application")) = false := by
    by_cases hn : n = "Root"
    · have ht : t ≠ "application" := fun hc => h ⟨hn, hc⟩
      simp [hn, ht]
    · simp [hn]
  simp only [componentRow, isRootComponent_mkComp n t, hroot, exceptBind_ok,
    Bool.false_eq_true, if_false]
  simp [mkComp, dictGetD, lookupField, includeSkips, formattedType,
    occLocations, pyIter, formatLocations]

/-- The root-marker flag of a constructed component is false when it is
not the Root/application pair. -/
lemma rootFlag_false (n t : String) (h : ¬(n = "Root" ∧ t = "application")) :
    ((n == "Root") && (t == "application")) = false := by
  by_cases hn : n = "Root"
  · have ht : t ≠ "application" := fun hc => h ⟨hn, hc⟩
    simp [hn, ht]
  · simp [hn]

/-- The statistics loop skips the Root marker. -/
lemma statsOfComponents_root_cons (included : Option (List String))
    (cs : List Json) (counts : List (Json × Nat)) :
    statsOfComponents included (rootComp :: cs) counts =
      statsOfComponents included cs counts := by
  simp only [statsOfComponents,
    show isRootComponent rootComp = .ok true from rfl, exceptBind_ok, if_true]

/-- The statistics loop counts a non-root constructed component once under
its raw type (no include filter). -/
lemma statsOfComponents_mkComp_cons (n t : String)
    (h : ¬(n = "Root" ∧ t = "application")) (cs : List Json)
    (counts : List (Json × Nat)) :
    statsOfComponents none (mkComp n t :: cs) counts =
      statsOfComponents none cs (bumpCount counts (.str t)) := by
  simp only [statsOfComponents, isRootComponent_mkComp n t, rootFlag_false n t h,
    exceptBind_ok, Bool.false_eq_true, if_false]
  rw [show dictGetD (mkComp n t) "type" (.str "unknown") = .ok (.str t) from rfl]
  simp [includeSkips]

/-- Bumping a type's count raises the total by one. -/
lemma bumpCount_sum (counts : List (Json × Nat)) (t : Json) :
    ((bumpCount counts t).map Prod.snd).sum = (counts.map Prod.snd).sum + 1 := by
  induction counts with
  | nil => rfl
  | cons c cs ih =>
    obtain ⟨k, m⟩ := c
    rw [bumpCount]
    by_cases hk : jsonEq k t = true
    · simp [hk]
      omega
    · simp only [Bool.not_eq_true] at hk
      simp [hk, ih]
      omega

/-- C8: an artifact holding the synthetic Root/application marker plus two
other components contributes exactly two rows to the summary table (the
two non-root components, in order), a total of two to the per-type
statistics, nothing for the Root component to the policy check (its
forbidden list equals that of the artifact without Root), and a per-target
component count of two in the `scan` command. -/
theorem claim8_root_excluded (tn : Json) (n1 t1 n2 t2 : String)
    (rejected : List String)
    (h1 : ¬(n1 = "Root" ∧ t1 = "application"))
    (h2 : ¬(n2 = "Root" ∧ t2 = "application")) :
    (∃ r1 r2, summaryRows none
        [mkEntry tn (nestedDoc [rootComp, mkComp n1 t1, mkComp n2 t2])] =
          .ok [r1, r2] ∧ r1.name = .str n1 ∧ r2.name = .str n2) ∧
    (∃ counts, typeStats none
        [mkEntry tn (nestedDoc [rootComp, mkComp n1 t1, mkComp n2 t2])] [] =
          .ok counts ∧ (counts.map Prod.snd).sum = 2) ∧
    policyForbidden rejected
        [mkEntry tn (nestedDoc [rootComp, mkComp n1 t1, mkComp n2 t2])] =
      policyForbidden rejected
        [mkEntry tn (nestedDoc [mkComp n1 t1, mkComp n2 t2])] ∧
    componentCount (nestedDoc [rootComp, mkComp n1 t1, mkComp n2 t2]) =
      .ok 2 := by
  refine ⟨?_, ?_, ?_, by rfl⟩
  · refine ⟨⟨.str n1, tn, (if t1 = "machine-learning-model" then "ML Model"
        else if t1 = "data" then "Dataset"
        else if t1 = "library" then "Library"
        else if t1 = "application" then "Application"
        else pyTitle t1), "No source locations"⟩,
      ⟨.str n2, tn, (if t2 = "machine-learning-model" then "ML Model"
        else if t2 = "data" then "Dataset"
        else if t2 = "library" then "Library"
        else if t2 = "application" then "Application"
        else pyTitle t2), "No source locations"⟩, ?_, rfl, rfl⟩
    simp [summaryRows, summaryRowsOfEntry, mkEntry, dictGetD, lookupField,
      extractComponents_nested, pyIter, rowsOfComponents,
      componentRow_mkComp tn n1 t1 h1, componentRow_mkComp tn n2 t2 h2,
      show componentRow none tn rootComp = .ok none from rfl]
  · refine ⟨bumpCount (bumpCount [] (.str t1)) (.str t2), ?_, ?_⟩
    · simp only [typeStats, exceptBind_ok,
        show dictGetD (mkEntry tn (nestedDoc [rootComp, mkComp n1 t1,
          mkComp n2 t2])) "target_name" (.str "Unknown Target") = .ok tn
          from rfl,
        show dictGetD (mkEntry tn (nestedDoc [rootComp, mkComp n1 t1,
          mkComp n2 t2])) "aibom_data" (.obj []) =
          .ok (nestedDoc [rootComp, mkComp n1 t1, mkComp n2 t2]) from rfl,
        extractComponents_nested,
        show pyIter (Json.arr [rootComp, mkComp n1 t1, mkComp n2 t2]) =
          .ok [rootComp, mkComp n1 t1, mkComp n2 t2] from rfl]
      rw [statsOfComponents_root_cons, statsOfComponents_mkComp_cons n1 t1 h1,
        statsOfComponents_mkComp_cons n2 t2 h2]
      rfl
    · rw [bumpCount_sum, bumpCount_sum]
      rfl
  · simp [policyForbidden, mkEntry, dictGetD, lookupField,
      extractComponents_nested, pyIter, policyRowsOfComponents,
      show policyRowOfComponent rejected tn rootComp = .ok none from rfl]

/-- C8 witness: two concrete machine-learning models beside the Root
marker. -/
theorem claim8_root_excluded_witness :
    (∃ r1 r2, summaryRows none
        [mkEntry (.str "repo-a") (nestedDoc [rootComp,
          mkComp "gpt-4" "machine-learning-model",
          mkComp "bert" "machine-learning-model"])] =
          .ok [r1, r2] ∧ r1.name = .str "gpt-4" ∧ r2.name = .str "bert") ∧
    (∃ counts, typeStats none
        [mkEntry (.str "repo-a") (nestedDoc [rootComp,
          mkComp "gpt-4" "machine-learning-model",
          mkComp "bert" "machine-learning-model"])] [] =
          .ok counts ∧ (counts.map Prod.snd).sum = 2) ∧
    policyForbidden ["gpt-4", "bert"]
        [mkEntry (.str "repo-a") (nestedDoc [rootComp,
          mkComp "gpt-4" "machine-learning-model",
          mkComp "bert" "machine-learning-model"])] =
      policyForbidden ["gpt-4", "bert"]
        [mkEntry (.str "repo-a") (nestedDoc
          [mkComp "gpt-4" "machine-learning-model",
           mkComp "bert" "machine-learning-model"])] ∧
    componentCount (nestedDoc [rootComp,
        mkComp "gpt-4" "machine-learning-model",
        mkComp "bert" "machine-learning-model"]) = .ok 2 :=
  claim8_root_excluded (.str "repo-a") "gpt-4" "machine-learning-model"
    "bert" "machine-learning-model" ["gpt-4", "bert"]
    (by simp) (by simp)

/-- C10 (amended): whenever target enumeration returns normally with an
empty list, the `scan` command exits through the dedicated branch — status
1 with the "Could not retrieve any targets. Exiting." message — rather than
printing an empty final report; a total fetch failure also exits with
status 1, but through the blanket exception handler (the fetcher's `None`
makes `get_all_targets` raise `TypeError`), so the two cases share the exit
status but not the console message. -/
theorem claim10_empty_exits_like_failure :
    (∀ (script : List HttpResult),
      (get_all_targets testCfg script).2.2 = .ok [] →
      scanRun testCfg script = .fatalNoTargets) ∧
    scanExitMessage .fatalNoTargets =
      some "Could not retrieve any targets. Exiting." ∧
    scanExitCode .fatalNoTargets = 1 ∧
    scanRun testCfg [.exn] = .errorExit .typeError ∧
    scanExitCode (.errorExit .typeError) = 1 := by
  refine ⟨?_, rfl, rfl, by rfl, rfl⟩
  intro script h
  unfold scanRun
  rw [show get_all_targets testCfg script =
      ((get_all_targets testCfg script).1, (get_all_targets testCfg script).2.1,
        (get_all_targets testCfg script).2.2) from rfl, h]
  rfl

/-- C10 witness: an organization whose single targets page is empty. -/
theorem claim10_empty_exits_like_failure_witness :
    scanRun testCfg [mkLastPage []] = .fatalNoTargets :=
  claim10_empty_exits_like_failure.1 [mkLastPage []] (by rfl)

/-- C10 counterexample: a total fetch failure does not produce the
"Could not retrieve any targets" exit — it takes the blanket handler path
with a different console message, so at the public interface the
successful-but-empty fetch and the total fetch failure are distinguishable
by their messages (only the exit status coincides). -/
theorem claim10_failure_message_differs :
    scanRun testCfg [.exn] = .errorExit .typeError ∧
    scanRun testCfg [mkLastPage []] = .fatalNoTargets ∧
    scanExitMessage (.errorExit .typeError) ≠ scanExitMessage .fatalNoTargets := by
  exact ⟨by rfl, by rfl, by simp [scanExitMessage]⟩

end AiBom
